import Mathlib

/- Shallow embedding of the MeteorSim impact and mitigation calculators
(the impact-calculations service and the mitigation service). Numbers are
modelled as real numbers; the single Math.random draw inside the ocean
test is modelled as an explicit oracle argument (the value of the draw),
so non-determinism becomes quantification over that argument. -/

namespace MeteorSim

/-- Average asteroid density in kg per cubic meter. -/
noncomputable def ASTEROID_DENSITY : ℝ := 3000

/-- Joules per kiloton of TNT. -/
noncomputable def TNT_ENERGY : ℝ := 4.184e9

/-- Fraction of the Earth covered by ocean, used as a Bernoulli probability. -/
noncomputable def EARTH_OCEAN_COVERAGE : ℝ := 0.71

/-- Input record of the impact calculator. -/
structure AsteroidData where
  diameter : ℝ
  velocity : ℝ
  angle : ℝ
  impactLat : ℝ
  impactLon : ℝ

/-- Output record of the impact calculator; the optional tsunami height is
an Option value, present only on ocean impacts. -/
structure ImpactResults where
  mass : ℝ
  energy : ℝ
  craterDiameter : ℝ
  craterDepth : ℝ
  shockwaveRadius : ℝ
  seismicMagnitude : ℝ
  thermalRadius : ℝ
  isOceanImpact : Bool
  tsunamiHeight : Option ℝ
  affectedPopulation : ℤ

/-- Mass of a sphere of the given diameter at the fixed asteroid density. -/
noncomputable def calculateMass (diameter : ℝ) : ℝ :=
  (4 / 3) * Real.pi * (diameter / 2) ^ 3 * ASTEROID_DENSITY

/-- Kinetic energy in megatons of TNT; velocity is given in km/s. -/
noncomputable def calculateEnergy (mass velocity : ℝ) : ℝ :=
  0.5 * mass * (velocity * 1000) ^ 2 / TNT_ENERGY / 1000

/-- Empirical crater-diameter scaling law, in km. The velocity argument is
accepted and ignored, exactly as in the source. -/
noncomputable def calculateCraterDiameter (energy velocity angle : ℝ) (isOcean : Bool) : ℝ :=
  1.8e-3 * (energy * 1e6 * TNT_ENERGY) ^ (0.22 : ℝ) *
    Real.sin (angle * Real.pi / 180) ^ ((1 : ℝ) / 3) *
    (if isOcean then (0.8 : ℝ) else 1.0) / 1000

/-- Crater depth as a quarter of the crater diameter. -/
noncomputable def calculateCraterDepth (diameter : ℝ) : ℝ :=
  diameter / 4

/-- Shockwave radius in km from the energy in megatons. -/
noncomputable def calculateShockwaveRadius (energy : ℝ) : ℝ :=
  energy ^ (0.33 : ℝ) * 2.5

/-- Thermal radiation radius in km from the energy in megatons. -/
noncomputable def calculateThermalRadius (energy : ℝ) : ℝ :=
  energy ^ (0.41 : ℝ) * 3.2

/-- Seismic magnitude from the energy in megatons. -/
noncomputable def calculateSeismicMagnitude (energy : ℝ) : ℝ :=
  (2 / 3) * Real.logb 10 (energy * 1e6 * TNT_ENERGY) - 2.9

/-- Ocean test: three bounding boxes answer true deterministically, any
other coordinate compares the random draw against the ocean coverage. -/
noncomputable def isOceanImpact (lat lon : ℝ) (random : ℝ) : Bool :=
  if (lon > 120 ∨ lon < -70) ∧ |lat| < 60 then true
  else if (lon > -70 ∧ lon < -10) ∧ |lat| < 60 then true
  else if lon > 40 ∧ lon < 120 ∧ lat < 20 ∧ lat > -50 then true
  else decide (random < EARTH_OCEAN_COVERAGE)

/-- Disjunction of the three ocean bounding boxes of the ocean test. -/
def oceanBoxes (lat lon : ℝ) : Prop :=
  ((lon > 120 ∨ lon < -70) ∧ |lat| < 60) ∨
  ((lon > -70 ∧ lon < -10) ∧ |lat| < 60) ∨
  (lon > 40 ∧ lon < 120 ∧ lat < 20 ∧ lat > -50)

/-- Tsunami wave height in meters for ocean impacts; the initial height is
capped at half the water depth. -/
noncomputable def calculateTsunamiHeight (energy craterDiameter waterDepth : ℝ) : ℝ :=
  min (craterDiameter * 1000 / 10) (waterDepth * 0.5) * energy ^ (0.25 : ℝ) * 0.1

/-- Affected population: density of a coarse geographic bucket times the
disk area of the larger damage radius, rounded to the nearest integer
(JavaScript Math.round is floor of the value plus one half). -/
noncomputable def estimateAffectedPopulation (lat lon shockwaveRadius thermalRadius : ℝ) : ℤ :=
  ⌊(if |lat| < 60 then
      if lon > -130 ∧ lon < -60 ∧ lat > 15 then (25 : ℝ)
      else if lon > -80 ∧ lon < -35 ∧ lat < 15 then 23
      else if lon > -10 ∧ lon < 40 ∧ lat > 35 then 73
      else if lon > -20 ∧ lon < 50 ∧ lat < 35 ∧ lat > -35 then 45
      else if lon > 40 ∧ lon < 150 then 150
      else if lon > 110 ∧ lon < 180 ∧ lat < -10 then 5
      else 0
    else 0) * (Real.pi * max shockwaveRadius thermalRadius ^ 2) + 1 / 2⌋

/-- Main impact calculation, threading the oracle for the random draw. -/
noncomputable def calculateImpact (data : AsteroidData) (random : ℝ) : ImpactResults :=
  let mass := calculateMass data.diameter
  let energy := calculateEnergy mass data.velocity
  let isOcean := isOceanImpact data.impactLat data.impactLon random
  let craterDiameter := calculateCraterDiameter energy data.velocity data.angle isOcean
  { mass := mass
    energy := energy
    craterDiameter := craterDiameter
    craterDepth := calculateCraterDepth craterDiameter
    shockwaveRadius := calculateShockwaveRadius energy
    thermalRadius := calculateThermalRadius energy
    seismicMagnitude := calculateSeismicMagnitude energy
    isOceanImpact := isOcean
    tsunamiHeight :=
      if isOcean then some (calculateTsunamiHeight energy craterDiameter 4000) else Option.none
    affectedPopulation :=
      estimateAffectedPopulation data.impactLat data.impactLon
        (calculateShockwaveRadius energy) (calculateThermalRadius energy) }

/-- The five mitigation strategy identifiers. -/
inductive MitigationStrategy where
  | none
  | kinetic_impactor
  | nuclear_device
  | gravity_tractor
  | ion_beam
deriving DecidableEq

/-- Outcome record of one mitigation strategy. -/
structure MitigationResult where
  strategy : MitigationStrategy
  successProbability : ℝ
  velocityChange : ℝ
  trajectoryDeflection : ℝ
  warningTimeNeeded : ℝ
  description : String
  energyReduction : ℝ

/-- Kinetic impactor: momentum transfer from a 500 kg spacecraft at
10 km/s with momentum-enhancement factor 1.5. -/
noncomputable def calculateKineticImpactor (asteroidMass asteroidVelocity warningTime : ℝ) :
    MitigationResult :=
  let spacecraftMass : ℝ := 500
  let spacecraftVelocity : ℝ := 10000
  let beta : ℝ := 1.5
  let velocityChange := beta * (spacecraftMass * spacecraftVelocity) / asteroidMass
  let timeSeconds := warningTime * 365.25 * 24 * 3600
  let trajectoryDeflection := velocityChange * timeSeconds / 1000
  let successProbability := min (warningTime / 5) 0.95
  let r := velocityChange / (asteroidVelocity * 1000)
  let energyReduction := (2 * r - r * r) * 100
  { strategy := MitigationStrategy.kinetic_impactor
    successProbability := successProbability
    velocityChange := velocityChange
    trajectoryDeflection := trajectoryDeflection
    warningTimeNeeded := 5
    description := "High-speed spacecraft collision to change asteroid momentum. Most viable current technology."
    energyReduction := energyReduction }

/-- Nuclear device: one-megaton standoff detonation with coupling
efficiency 0.1. -/
noncomputable def calculateNuclearDevice (asteroidMass asteroidDiameter warningTime : ℝ) :
    MitigationResult :=
  let yieldJoules : ℝ := 4.184e15
  let efficiency : ℝ := 0.1
  let asteroidRadius := asteroidDiameter / 2
  let surfaceArea := 4 * Real.pi * asteroidRadius ^ 2
  let impulse := efficiency * yieldJoules / 1000
  let velocityChange := impulse / asteroidMass
  let timeSeconds := warningTime * 365.25 * 24 * 3600
  let trajectoryDeflection := velocityChange * timeSeconds / 1000
  { strategy := MitigationStrategy.nuclear_device
    successProbability := min (warningTime / 3) 0.90
    velocityChange := velocityChange
    trajectoryDeflection := trajectoryDeflection
    warningTimeNeeded := 3
    description := "Nuclear standoff burst to vaporize surface material and create thrust. High-risk, high-reward option."
    energyReduction := min (velocityChange / 1000 * 50) 15 }

/-- Gravity tractor: 1000 kg spacecraft hovering at 100 m over the full
warning time. -/
noncomputable def calculateGravityTractor (asteroidMass warningTime : ℝ) : MitigationResult :=
  let spacecraftMass : ℝ := 1000
  let G : ℝ := 6.674e-11
  let distance : ℝ := 100
  let force := G * spacecraftMass * asteroidMass / distance ^ 2
  let acceleration := force / asteroidMass
  let operatingTime := warningTime * 365.25 * 24 * 3600
  let velocityChange := acceleration * operatingTime
  let trajectoryDeflection := velocityChange * operatingTime / 2000
  { strategy := MitigationStrategy.gravity_tractor
    successProbability := min (warningTime / 10) 0.85
    velocityChange := velocityChange
    trajectoryDeflection := trajectoryDeflection
    warningTimeNeeded := 10
    description := "Spacecraft uses gravitational attraction to slowly pull asteroid off course. Requires very long warning time."
    energyReduction := min (velocityChange / 100 * 5) 8 }

/-- Ion beam shepherd: 0.5 N thrust at 0.7 efficiency over the full
warning time. The diameter argument is accepted and ignored, exactly as in
the source. -/
noncomputable def calculateIonBeam (asteroidMass asteroidDiameter warningTime : ℝ) :
    MitigationResult :=
  let thrust : ℝ := 0.5
  let efficiency : ℝ := 0.7
  let effectiveThrust := thrust * efficiency
  let acceleration := effectiveThrust / asteroidMass
  let operatingTime := warningTime * 365.25 * 24 * 3600
  let velocityChange := acceleration * operatingTime
  let trajectoryDeflection := velocityChange * operatingTime / 2000
  { strategy := MitigationStrategy.ion_beam
    successProbability := min (warningTime / 8) 0.80
    velocityChange := velocityChange
    trajectoryDeflection := trajectoryDeflection
    warningTimeNeeded := 8
    description := "Ion beam directed at asteroid surface to create ablation thrust. Experimental but promising technology."
    energyReduction := min (velocityChange / 100 * 6) 10 }

/-- Main mitigation dispatch: absent result for the strategy that denotes
no mitigation, otherwise the arithmetic of the chosen strategy. -/
noncomputable def calculateMitigation (strategy : MitigationStrategy)
    (asteroidMass asteroidDiameter asteroidVelocity warningTime : ℝ) :
    Option MitigationResult :=
  if strategy = MitigationStrategy.none then Option.none
  else
    match strategy with
    | MitigationStrategy.none => Option.none
    | MitigationStrategy.kinetic_impactor =>
        some (calculateKineticImpactor asteroidMass asteroidVelocity warningTime)
    | MitigationStrategy.nuclear_device =>
        some (calculateNuclearDevice asteroidMass asteroidDiameter warningTime)
    | MitigationStrategy.gravity_tractor =>
        some (calculateGravityTractor asteroidMass warningTime)
    | MitigationStrategy.ion_beam =>
        some (calculateIonBeam asteroidMass asteroidDiameter warningTime)

/- Theorems settling the claims. -/

/-- C3: for every mass, diameter, velocity and warning time, the
mitigation dispatch returns an absent result exactly for the strategy
that denotes no mitigation, and a present result for each of the four
concrete strategies. -/
theorem C3_none_is_only_absence (m d v w : ℝ) :
    calculateMitigation MitigationStrategy.none m d v w = Option.none ∧
    (calculateMitigation MitigationStrategy.kinetic_impactor m d v w).isSome = true ∧
    (calculateMitigation MitigationStrategy.nuclear_device m d v w).isSome = true ∧
    (calculateMitigation MitigationStrategy.gravity_tractor m d v w).isSome = true ∧
    (calculateMitigation MitigationStrategy.ion_beam m d v w).isSome = true := by
  refine ⟨rfl, ?_, ?_, ?_, ?_⟩ <;> simp [calculateMitigation]

/-- C5: the kinetic impactor success probability is the minimum of a fifth
of the warning time and 0.95, hence never exceeds 0.95. -/
theorem C5_kinetic_success_probability (m d v w : ℝ) :
    calculateMitigation MitigationStrategy.kinetic_impactor m d v w =
      some (calculateKineticImpactor m v w) ∧
    (calculateKineticImpactor m v w).successProbability = min (w / 5) 0.95 ∧
    (calculateKineticImpactor m v w).successProbability ≤ 0.95 := by
  refine ⟨rfl, rfl, ?_⟩
  simp [calculateKineticImpactor]

/-- C8: crater depth is exactly a quarter of the crater diameter, both as
a stand-alone function and inside the full impact calculation. -/
theorem C8_crater_depth_quarter (data : AsteroidData) (random : ℝ) :
    (∀ d : ℝ, calculateCraterDepth d = d / 4) ∧
    (calculateImpact data random).craterDepth = (calculateImpact data random).craterDiameter / 4 := by
  exact ⟨fun d => rfl, rfl⟩

/-- C7: the impact result carries a tsunami height exactly when its ocean
flag is set. -/
theorem C7_tsunami_iff_ocean (data : AsteroidData) (random : ℝ) :
    ((calculateImpact data random).tsunamiHeight).isSome =
      (calculateImpact data random).isOceanImpact := by
  by_cases h : isOceanImpact data.impactLat data.impactLon random = true <;>
    simp [calculateImpact, h]

/-- C10: outside the band of latitudes below 60 degrees in absolute value,
the population region stays the ocean bucket of density zero, so the
affected population is exactly zero whatever the radii are. -/
theorem C10_polar_population_zero (lat lon shockwaveRadius thermalRadius : ℝ)
    (h : |lat| ≥ 60) :
    estimateAffectedPopulation lat lon shockwaveRadius thermalRadius = 0 := by
  unfold estimateAffectedPopulation
  rw [if_neg (by linarith)]
  norm_num

/-- Closed witness for C10 at a concrete polar input. -/
theorem C10_polar_population_zero_witness :
    estimateAffectedPopulation 75 10 1000 2000 = 0 :=
  C10_polar_population_zero 75 10 1000 2000 (by norm_num)

/-- Inside any of the three bounding boxes the ocean test answers true,
whatever the random draw is. -/
lemma isOceanImpact_of_oceanBoxes {lat lon : ℝ} (h : oceanBoxes lat lon) (random : ℝ) :
    isOceanImpact lat lon random = true := by
  unfold isOceanImpact
  rcases h with h1 | h2 | h3
  · rw [if_pos h1]
  · rcases h2 with ⟨⟨hgt, hlt⟩, habs⟩
    rw [if_neg, if_pos ⟨⟨hgt, hlt⟩, habs⟩]
    rintro ⟨hlon | hlon, -⟩ <;> linarith
  · rcases h3 with ⟨hgt, hlt, hlat1, hlat2⟩
    rw [if_neg, if_neg, if_pos ⟨hgt, hlt, hlat1, hlat2⟩]
    · rintro ⟨⟨-, hlon⟩, -⟩
      linarith
    · rintro ⟨hlon | hlon, -⟩ <;> linarith

/-- C6: coordinates inside one of the three ocean bounding boxes make the
ocean test answer true independently of the random draw; the point at
latitude 0 and longitude 150 is such a point, while the point at latitude
0 and longitude 0 lies outside all boxes and the answer there is exactly
the comparison of the draw with the ocean coverage. -/
theorem C6_ocean_box_determinism :
    (∀ lat lon : ℝ, oceanBoxes lat lon →
      ∀ random : ℝ, isOceanImpact lat lon random = true) ∧
    (∀ random : ℝ, isOceanImpact 0 150 random = true) ∧
    (∀ random : ℝ, isOceanImpact 0 0 random = decide (random < EARTH_OCEAN_COVERAGE)) := by
  refine ⟨fun lat lon h random => isOceanImpact_of_oceanBoxes h random, ?_, ?_⟩
  · intro random
    apply isOceanImpact_of_oceanBoxes
    left
    constructor
    · left; norm_num
    · rw [abs_zero]; norm_num
  · intro random
    unfold isOceanImpact
    rw [if_neg, if_neg, if_neg]
    · rintro ⟨hgt, -⟩
      linarith
    · rintro ⟨⟨-, hlt⟩, -⟩
      linarith
    · rintro ⟨hlon | hlon, -⟩ <;> linarith

/-- Closed witness for C6 at a concrete in-box input in the Atlantic box. -/
theorem C6_ocean_box_determinism_witness :
    isOceanImpact 20 (-40) 0.9 = true :=
  C6_ocean_box_determinism.1 20 (-40)
    (Or.inr (Or.inl ⟨⟨by norm_num, by norm_num⟩, by rw [abs_of_pos] <;> norm_num⟩)) 0.9

/-- Helper for C9: the gravity tractor outcome does not depend on the
asteroid mass once the mass is nonzero, because the gravitational force is
proportional to the mass and is then divided by it. -/
lemma calculateGravityTractor_mass_free {m : ℝ} (hm : m ≠ 0) (w : ℝ) :
    calculateGravityTractor m w = calculateGravityTractor 1 w := by
  have hacc : (6.674e-11 : ℝ) * 1000 * m / 100 ^ 2 / m = 6.674e-11 * 1000 * 1 / 100 ^ 2 / 1 := by
    field_simp
    ring
  simp only [calculateGravityTractor]
  rw [hacc]

/-- C9: the gravity tractor result of the mitigation dispatch is equal in
every field for any two positive asteroid masses, all other arguments
fixed. -/
theorem C9_gravity_tractor_mass_independent (m1 m2 diameter velocity w : ℝ)
    (h1 : 0 < m1) (h2 : 0 < m2) :
    calculateMitigation MitigationStrategy.gravity_tractor m1 diameter velocity w =
    calculateMitigation MitigationStrategy.gravity_tractor m2 diameter velocity w := by
  simp only [calculateMitigation]
  rw [calculateGravityTractor_mass_free (ne_of_gt h1) w,
    calculateGravityTractor_mass_free (ne_of_gt h2) w]

/-- Closed witness for C9 at two concrete positive masses. -/
theorem C9_gravity_tractor_mass_independent_witness :
    calculateMitigation MitigationStrategy.gravity_tractor 1000 50 20 10 =
    calculateMitigation MitigationStrategy.gravity_tractor 7 50 20 10 :=
  C9_gravity_tractor_mass_independent 1000 7 50 20 10 (by norm_num) (by norm_num)

/-- A positive diameter gives a positive mass. -/
lemma calculateMass_pos {d : ℝ} (hd : 0 < d) : 0 < calculateMass d := by
  unfold calculateMass ASTEROID_DENSITY
  have h3 : 0 < (d / 2) ^ 3 := pow_pos (by linarith) 3
  have hpi := Real.pi_pos
  nlinarith

/-- Mass is strictly increasing in the diameter on positive diameters. -/
lemma calculateMass_lt {d1 d2 : ℝ} (h0 : 0 < d1) (h : d1 < d2) :
    calculateMass d1 < calculateMass d2 := by
  unfold calculateMass ASTEROID_DENSITY
  have hcube : (d1 / 2) ^ 3 < (d2 / 2) ^ 3 :=
    pow_lt_pow_left₀ (by linarith) (by linarith) (by norm_num)
  have hpi := Real.pi_pos
  nlinarith [mul_pos hpi (sub_pos.mpr hcube)]

/-- A positive mass and velocity give a positive energy. -/
lemma calculateEnergy_pos {m v : ℝ} (hm : 0 < m) (hv : 0 < v) : 0 < calculateEnergy m v := by
  unfold calculateEnergy TNT_ENERGY
  have hv2 : 0 < (v * 1000) ^ 2 := pow_pos (by linarith) 2
  have hnum : 0 < 0.5 * m * (v * 1000) ^ 2 := by nlinarith
  positivity

/-- Energy is strictly increasing in the mass at a positive velocity. -/
lemma calculateEnergy_lt {m1 m2 v : ℝ} (hv : 0 < v) (hlt : m1 < m2) :
    calculateEnergy m1 v < calculateEnergy m2 v := by
  unfold calculateEnergy TNT_ENERGY
  have hv2 : 0 < (v * 1000) ^ 2 := pow_pos (by linarith) 2
  have key : 0 < (m2 - m1) * (v * 1000) ^ 2 := mul_pos (sub_pos.mpr hlt) hv2
  nlinarith [key]

/-- Crater diameter is strictly increasing in the energy, for nonnegative
energies, a positive angle of at most 90 degrees, and either terrain. -/
lemma calculateCraterDiameter_lt {e1 e2 v angle : ℝ} (he : 0 ≤ e1) (hlt : e1 < e2)
    (ha0 : 0 < angle) (ha90 : angle ≤ 90) (oc : Bool) :
    calculateCraterDiameter e1 v angle oc < calculateCraterDiameter e2 v angle oc := by
  unfold calculateCraterDiameter TNT_ENERGY
  have hpi := Real.pi_pos
  have hsin : 0 < Real.sin (angle * Real.pi / 180) := by
    apply Real.sin_pos_of_pos_of_lt_pi
    · exact div_pos (mul_pos ha0 hpi) (by norm_num)
    · nlinarith [mul_pos (show (0:ℝ) < 180 - angle by linarith) hpi]
  have hA : 0 < Real.sin (angle * Real.pi / 180) ^ ((1 : ℝ) / 3) :=
    Real.rpow_pos_of_pos hsin _
  have hF : 0 < (if oc then (0.8 : ℝ) else 1.0) := by cases oc <;> norm_num
  have hx : (e1 * 1e6 * 4.184e9 : ℝ) ^ (0.22 : ℝ) < (e2 * 1e6 * 4.184e9) ^ (0.22 : ℝ) := by
    apply Real.rpow_lt_rpow
    · nlinarith
    · nlinarith
    · norm_num
  nlinarith [mul_pos (sub_pos.mpr hx) (mul_pos hA hF)]

/-- Shockwave radius is strictly increasing in the energy on nonnegative
energies. -/
lemma calculateShockwaveRadius_lt {e1 e2 : ℝ} (he : 0 ≤ e1) (hlt : e1 < e2) :
    calculateShockwaveRadius e1 < calculateShockwaveRadius e2 := by
  unfold calculateShockwaveRadius
  have := Real.rpow_lt_rpow he hlt (by norm_num : (0:ℝ) < 0.33)
  nlinarith

/-- Thermal radius is strictly increasing in the energy on nonnegative
energies. -/
lemma calculateThermalRadius_lt {e1 e2 : ℝ} (he : 0 ≤ e1) (hlt : e1 < e2) :
    calculateThermalRadius e1 < calculateThermalRadius e2 := by
  unfold calculateThermalRadius
  have := Real.rpow_lt_rpow he hlt (by norm_num : (0:ℝ) < 0.41)
  nlinarith

/-- C2: with a positive velocity, an angle in the interval from 0
exclusive to 90 inclusive, the coordinates and the random draw fixed,
each of mass, energy, crater diameter, shockwave radius and thermal
radius of the impact calculation is strictly increasing in the
diameter over positive diameters. -/
theorem C2_strictly_increasing_in_diameter (velocity angle lat lon random : ℝ)
    (hv : 0 < velocity) (ha0 : 0 < angle) (ha90 : angle ≤ 90)
    (d1 d2 : ℝ) (h0 : 0 < d1) (h12 : d1 < d2) :
    (calculateImpact ⟨d1, velocity, angle, lat, lon⟩ random).mass <
      (calculateImpact ⟨d2, velocity, angle, lat, lon⟩ random).mass ∧
    (calculateImpact ⟨d1, velocity, angle, lat, lon⟩ random).energy <
      (calculateImpact ⟨d2, velocity, angle, lat, lon⟩ random).energy ∧
    (calculateImpact ⟨d1, velocity, angle, lat, lon⟩ random).craterDiameter <
      (calculateImpact ⟨d2, velocity, angle, lat, lon⟩ random).craterDiameter ∧
    (calculateImpact ⟨d1, velocity, angle, lat, lon⟩ random).shockwaveRadius <
      (calculateImpact ⟨d2, velocity, angle, lat, lon⟩ random).shockwaveRadius ∧
    (calculateImpact ⟨d1, velocity, angle, lat, lon⟩ random).thermalRadius <
      (calculateImpact ⟨d2, velocity, angle, lat, lon⟩ random).thermalRadius := by
  have hmlt := calculateMass_lt h0 h12
  have hm1 := calculateMass_pos h0
  have helt := calculateEnergy_lt hv hmlt
  have he1 := calculateEnergy_pos hm1 hv
  exact ⟨hmlt, helt,
    @calculateCraterDiameter_lt _ _ velocity angle (le_of_lt he1) helt ha0 ha90 _,
    calculateShockwaveRadius_lt (le_of_lt he1) helt,
    calculateThermalRadius_lt (le_of_lt he1) helt⟩

/-- Closed witness for C2 at concrete parameters. -/
theorem C2_strictly_increasing_in_diameter_witness :
    (calculateImpact ⟨100, 20, 45, 40.7, -74.0⟩ 0).mass <
      (calculateImpact ⟨500, 20, 45, 40.7, -74.0⟩ 0).mass ∧
    (calculateImpact ⟨100, 20, 45, 40.7, -74.0⟩ 0).energy <
      (calculateImpact ⟨500, 20, 45, 40.7, -74.0⟩ 0).energy ∧
    (calculateImpact ⟨100, 20, 45, 40.7, -74.0⟩ 0).craterDiameter <
      (calculateImpact ⟨500, 20, 45, 40.7, -74.0⟩ 0).craterDiameter ∧
    (calculateImpact ⟨100, 20, 45, 40.7, -74.0⟩ 0).shockwaveRadius <
      (calculateImpact ⟨500, 20, 45, 40.7, -74.0⟩ 0).shockwaveRadius ∧
    (calculateImpact ⟨100, 20, 45, 40.7, -74.0⟩ 0).thermalRadius <
      (calculateImpact ⟨500, 20, 45, 40.7, -74.0⟩ 0).thermalRadius :=
  C2_strictly_increasing_in_diameter 20 45 40.7 (-74.0) 0
    (by norm_num) (by norm_num) (by norm_num) 100 500 (by norm_num) (by norm_num)

/-- C1 counterexample: at the out-of-box coordinates of latitude 0 and
longitude 0, a draw below the ocean coverage and a draw above it give the
impact calculation different crater diameters, because the crater formula
scales by a terrain factor of 0.8 on ocean and 1.0 on land. The claim
that the crater diameter never depends on the draw is therefore false. -/
theorem C1_counterexample :
    (calculateImpact ⟨2, 1, 90, 0, 0⟩ 0).craterDiameter ≠
      (calculateImpact ⟨2, 1, 90, 0, 0⟩ 1).craterDiameter := by
  have h1 : isOceanImpact 0 0 0 = true := by
    unfold isOceanImpact EARTH_OCEAN_COVERAGE
    rw [if_neg, if_neg, if_neg]
    · simp only [decide_eq_true_eq]
      norm_num
    · rintro ⟨hgt, -⟩
      linarith
    · rintro ⟨⟨-, hlon⟩, -⟩
      linarith
    · rintro ⟨hlon | hlon, -⟩ <;> linarith
  have h2 : isOceanImpact 0 0 1 = false := by
    unfold isOceanImpact EARTH_OCEAN_COVERAGE
    rw [if_neg, if_neg, if_neg]
    · simp only [decide_eq_false_iff_not]
      norm_num
    · rintro ⟨hgt, -⟩
      linarith
    · rintro ⟨⟨-, hlon⟩, -⟩
      linarith
    · rintro ⟨hlon | hlon, -⟩ <;> linarith
  have hE : 0 < calculateEnergy (calculateMass 2) 1 :=
    calculateEnergy_pos (calculateMass_pos (by norm_num)) (by norm_num)
  show calculateCraterDiameter (calculateEnergy (calculateMass 2) 1) 1 90 (isOceanImpact 0 0 0) ≠
    calculateCraterDiameter (calculateEnergy (calculateMass 2) 1) 1 90 (isOceanImpact 0 0 1)
  rw [h1, h2]
  unfold calculateCraterDiameter TNT_ENERGY
  have hX : 0 < (calculateEnergy (calculateMass 2) 1 * 1e6 * 4.184e9) ^ (0.22 : ℝ) :=
    Real.rpow_pos_of_pos (by nlinarith) _
  have hs : Real.sin (90 * Real.pi / 180) = 1 := by
    rw [show (90 : ℝ) * Real.pi / 180 = Real.pi / 2 by ring, Real.sin_pi_div_two]
  rw [hs, Real.one_rpow]
  simp only [if_true, Bool.false_eq_true, if_false]
  intro heq
  nlinarith [hX]

/-- C1 amended: for a fixed input and any two random draws, the mass,
energy, shockwave radius, thermal radius, seismic magnitude and affected
population of the impact calculation coincide; when the coordinates fall
inside one of the three ocean bounding boxes the two results coincide in
every field, including crater diameter, crater depth, ocean flag and
tsunami height. Outside the boxes the ocean flag, and with it the crater
diameter, crater depth and tsunami height, may differ between draws. -/
theorem C1_amended_determinism (data : AsteroidData) (r1 r2 : ℝ) :
    (calculateImpact data r1).mass = (calculateImpact data r2).mass ∧
    (calculateImpact data r1).energy = (calculateImpact data r2).energy ∧
    (calculateImpact data r1).shockwaveRadius = (calculateImpact data r2).shockwaveRadius ∧
    (calculateImpact data r1).thermalRadius = (calculateImpact data r2).thermalRadius ∧
    (calculateImpact data r1).seismicMagnitude = (calculateImpact data r2).seismicMagnitude ∧
    (calculateImpact data r1).affectedPopulation = (calculateImpact data r2).affectedPopulation ∧
    (oceanBoxes data.impactLat data.impactLon →
      calculateImpact data r1 = calculateImpact data r2) := by
  refine ⟨rfl, rfl, rfl, rfl, rfl, rfl, fun h => ?_⟩
  have e1 := isOceanImpact_of_oceanBoxes h r1
  have e2 := isOceanImpact_of_oceanBoxes h r2
  unfold calculateImpact
  rw [e1, e2]

/-- Closed witness for C1 amended at in-box coordinates in the Pacific
box: the full results agree for two different draws. -/
theorem C1_amended_determinism_witness :
    calculateImpact ⟨500, 20, 45, 0, 150⟩ 0 = calculateImpact ⟨500, 20, 45, 0, 150⟩ 1 :=
  (C1_amended_determinism ⟨500, 20, 45, 0, 150⟩ 0 1).2.2.2.2.2.2
    (Or.inl ⟨Or.inl (by norm_num), by rw [abs_zero]; norm_num⟩)

/-- C4 counterexample: for a one-kilogram asteroid at one km/s with one
year of warning, the kinetic impactor energy reduction is negative (the
velocity-change to velocity ratio is 7500, and (2r - r*r)*100 is negative
for r above 2), so the claimed bound of 0 to 100 percent fails. -/
theorem C4_counterexample :
    calculateMitigation MitigationStrategy.kinetic_impactor 1 1 1 1 =
      some (calculateKineticImpactor 1 1 1) ∧
    (calculateKineticImpactor 1 1 1).energyReduction < 0 := by
  refine ⟨rfl, ?_⟩
  simp only [calculateKineticImpactor]
  norm_num

/-- C4 amended: with mass, velocity positive and warning time nonnegative,
the energy reduction of the nuclear device, gravity tractor and ion beam
results lies in the interval from 0 to 100; the kinetic impactor energy
reduction never exceeds 100 and is nonnegative exactly under the extra
assumption that the velocity change is at most twice the asteroid
velocity in m/s, an assumption that small masses violate. -/
theorem C4_amended_energy_reduction (m d v w : ℝ)
    (hm : 0 < m) (hv : 0 < v) (hw : 0 ≤ w) :
    (calculateMitigation MitigationStrategy.nuclear_device m d v w =
        some (calculateNuclearDevice m d w) ∧
      0 ≤ (calculateNuclearDevice m d w).energyReduction ∧
      (calculateNuclearDevice m d w).energyReduction ≤ 100) ∧
    (calculateMitigation MitigationStrategy.gravity_tractor m d v w =
        some (calculateGravityTractor m w) ∧
      0 ≤ (calculateGravityTractor m w).energyReduction ∧
      (calculateGravityTractor m w).energyReduction ≤ 100) ∧
    (calculateMitigation MitigationStrategy.ion_beam m d v w =
        some (calculateIonBeam m d w) ∧
      0 ≤ (calculateIonBeam m d w).energyReduction ∧
      (calculateIonBeam m d w).energyReduction ≤ 100) ∧
    (calculateMitigation MitigationStrategy.kinetic_impactor m d v w =
        some (calculateKineticImpactor m v w) ∧
      (calculateKineticImpactor m v w).energyReduction ≤ 100 ∧
      ((calculateKineticImpactor m v w).velocityChange / (v * 1000) ≤ 2 →
        0 ≤ (calculateKineticImpactor m v w).energyReduction)) := by
  have htime : 0 ≤ w * 365.25 * 24 * 3600 := by nlinarith
  refine ⟨⟨rfl, ?_, ?_⟩, ⟨rfl, ?_, ?_⟩, ⟨rfl, ?_, ?_⟩, ⟨rfl, ?_, ?_⟩⟩
  · simp only [calculateNuclearDevice]
    have hvc : (0:ℝ) ≤ 0.1 * 4.184e15 / 1000 / m := le_of_lt (div_pos (by norm_num) hm)
    exact le_min (by nlinarith) (by norm_num)
  · simp only [calculateNuclearDevice]
    exact le_trans (min_le_right _ _) (by norm_num)
  · simp only [calculateGravityTractor]
    have hacc : (0:ℝ) ≤ 6.674e-11 * 1000 * m / 100 ^ 2 / m :=
      le_of_lt (div_pos (div_pos (by nlinarith) (by norm_num)) hm)
    exact le_min (by nlinarith [mul_nonneg hacc htime]) (by norm_num)
  · simp only [calculateGravityTractor]
    exact le_trans (min_le_right _ _) (by norm_num)
  · simp only [calculateIonBeam]
    have hacc : (0:ℝ) ≤ 0.5 * 0.7 / m := le_of_lt (div_pos (by norm_num) hm)
    exact le_min (by nlinarith [mul_nonneg hacc htime]) (by norm_num)
  · simp only [calculateIonBeam]
    exact le_trans (min_le_right _ _) (by norm_num)
  · simp only [calculateKineticImpactor]
    have hsq := sq_nonneg (1 - 1.5 * (500 * 10000) / m / (v * 1000))
    nlinarith [hsq]
  · simp only [calculateKineticImpactor]
    intro hr2
    have hr0 : (0:ℝ) ≤ 1.5 * (500 * 10000) / m / (v * 1000) :=
      le_of_lt (div_pos (div_pos (by norm_num) hm) (by nlinarith))
    nlinarith [mul_nonneg hr0 (sub_nonneg.mpr hr2)]

/-- Closed witness for C4 amended at concrete parameters with a large
mass, where even the kinetic impactor ratio condition holds. -/
theorem C4_amended_energy_reduction_witness :
    0 ≤ (calculateNuclearDevice 1e10 500 5).energyReduction ∧
    (calculateNuclearDevice 1e10 500 5).energyReduction ≤ 100 ∧
    0 ≤ (calculateGravityTractor 1e10 5).energyReduction ∧
    (calculateGravityTractor 1e10 5).energyReduction ≤ 100 ∧
    0 ≤ (calculateIonBeam 1e10 500 5).energyReduction ∧
    (calculateIonBeam 1e10 500 5).energyReduction ≤ 100 ∧
    (calculateKineticImpactor 1e10 20 5).energyReduction ≤ 100 ∧
    0 ≤ (calculateKineticImpactor 1e10 20 5).energyReduction := by
  have h := C4_amended_energy_reduction 1e10 500 20 5 (by norm_num) (by norm_num) (by norm_num)
  refine ⟨h.1.2.1, h.1.2.2, h.2.1.2.1, h.2.1.2.2, h.2.2.1.2.1, h.2.2.1.2.2,
    h.2.2.2.2.1, h.2.2.2.2.2 ?_⟩
  simp only [calculateKineticImpactor]
  norm_num

end MeteorSim
